import Mathlib

/-!
A verification development for the home-yum recipe-content backend.
Each definition below is a shallow embedding of a function of the Python
source (file and function named in its doc comment).  External effects
(yt-dlp extraction, model calls, Firestore writes, the filesystem) are made
explicit: fallible external calls become `Except`/`Option`-valued oracle
parameters, Firestore writes become values returned alongside the result,
and the filesystem becomes an explicit set of paths threaded through the
functions that touch it.
-/

/-! ## Metadata extractor (`video_processing/extractor.py`) -/

/-- Boolean substring test on character lists: `needle` occurs contiguously
inside `hay`.  This is the meaning of Python's `needle in hay` on strings. -/
def strContains (hay needle : String) : Bool :=
  (List.range (hay.toList.length + 1)).any fun i =>
    needle.toList.isPrefixOf (hay.toList.drop i)

/-- Lowercasing of one character, as Python's `str.lower()` acts on the ASCII
range relevant to hostnames: A-Z map to a-z. -/
def charLower (c : Char) : Char :=
  if 65 ≤ c.toNat ∧ c.toNat ≤ 90 then Char.ofNat (c.toNat + 32) else c

/-- Python's `str.lower()` (ASCII range). -/
def strToLower (s : String) : String := ⟨s.toList.map charLower⟩

/-- `VideoMetadataExtractor.get_domain` (extractor.py:67-77): lowercases the
URL's netloc and classifies it by substring containment, in the source's
if/elif order: tiktok first, then youtube, then instagram, else unknown. -/
def get_domain (netloc : String) : String :=
  let domain := strToLower netloc
  if strContains domain "tiktok.com" || strContains domain "vm.tiktok" then "tiktok"
  else if strContains domain "youtube.com" || strContains domain "youtu.be" then "youtube"
  else if strContains domain "instagram.com" then "instagram"
  else "unknown"

/-- The metadata mapping built by `_extract_basic_metadata`.  Each field is
`Option`-valued: `none` models absence of the key from the Python dict, so the
empty dict `{}` is the record with every field `none`. -/
structure Metadata where
  title : Option String := none
  description : Option String := none
  duration : Option Int := none
  uploader : Option String := none
  view_count : Option Int := none
  like_count : Option Int := none
  comment_count : Option Int := none
  subtitle_text : Option String := none
  thumbnail : Option String := none
  webpage_url : Option String := none
  platform : Option String := none
  video_url : Option String := none
deriving Repr, DecidableEq

/-- The empty mapping `{}` returned by the extractor on failure. -/
def emptyMetadata : Metadata := {}

/-- A dict is falsy in Python exactly when it has no keys. -/
def Metadata.isEmpty (m : Metadata) : Bool :=
  m.title.isNone && m.description.isNone && m.duration.isNone && m.uploader.isNone &&
  m.view_count.isNone && m.like_count.isNone && m.comment_count.isNone &&
  m.subtitle_text.isNone && m.thumbnail.isNone && m.webpage_url.isNone &&
  m.platform.isNone && m.video_url.isNone

/-- The `info` dict returned by a successful `ydl.extract_info` call, reduced
to the keys `_extract_basic_metadata` reads.  `subtitle_text` is the caption
text already fetched and joined (the secondary caption fetch degrades to `""`
on failure inside `download_and_parse_subtitles`). -/
structure YdlInfo where
  title : Option String := none
  description : Option String := none
  duration : Option Int := none
  uploader : Option String := none
  view_count : Option Int := none
  like_count : Option Int := none
  comment_count : Option Int := none
  thumbnail : Option String := none
  webpage_url : Option String := none
  subtitle_text : String := ""
deriving Repr, DecidableEq

/-- `VideoMetadataExtractor._extract_basic_metadata` (extractor.py:314-368).
`ydl = none` models both "no information extracted" and a caught
`DownloadError`; either returns the empty dict.  The second component records
whether the yt-dlp extractor was invoked at all: on an unknown domain the
function returns `{}` before constructing `YoutubeDL`. -/
def extract_basic_metadata (netloc : String) (videoUrl : String)
    (ydl : Option YdlInfo) : Metadata × Bool :=
  let domain := get_domain netloc
  if domain = "unknown" then (emptyMetadata, false)
  else
    match ydl with
    | none => (emptyMetadata, true)
    | some info =>
        ({ title := some (info.title.getD "")
           description := some (info.description.getD "")
           duration := some (info.duration.getD 0)
           uploader := some (info.uploader.getD "")
           view_count := some (info.view_count.getD 0)
           like_count := some (info.like_count.getD 0)
           comment_count := some (info.comment_count.getD 0)
           subtitle_text := some info.subtitle_text
           thumbnail := some (info.thumbnail.getD "")
           webpage_url := some (info.webpage_url.getD videoUrl)
           platform := some domain
           video_url := none }, true)

/-! ## Nutrition analyzer (`video_processing/nutrition.py`) -/

/-- One entry of the `ingredients` array of the JSON the second model call
returns.  `get_nutrition_info` validates only that `ingredients` is an array,
never the shape of its entries, so every field is `Option`-valued (`none`
models a missing key). -/
structure RawIngredient where
  name : Option String := none
  amount : Option ℚ := none
  amountDescription : Option String := none
  calories : Option ℚ := none
  fat : Option ℚ := none
  carbs : Option ℚ := none
  protein : Option ℚ := none
  fiber : Option ℚ := none
deriving Repr, DecidableEq

/-- Python's `sum(ing[k] for ing in ingredients)`: left-to-right addition that
raises `KeyError` (here `Except.error`) at the first entry lacking the key.
The exception is caught by `analyze_recipe_nutrition`'s outer handler. -/
def sumField (f : RawIngredient → Option ℚ) : List RawIngredient → Except String ℚ
  | [] => Except.ok 0
  | i :: is =>
      match f i with
      | none => Except.error "KeyError"
      | some v => (sumField f is).map (fun s => v + s)

/-- The `nutrition_info` mapping of a successful analysis: the five aggregate
totals spread at top level next to the `ingredients` array
(nutrition.py:217-220). -/
structure NutritionInfo where
  calories : ℚ
  fat : ℚ
  carbs : ℚ
  protein : ℚ
  fiber : ℚ
  ingredients : List RawIngredient
deriving Repr, DecidableEq

/-- Result dict of `NutritionAnalyzer.analyze_recipe_nutrition`.  Keys absent
from the failure dict are `none`. -/
structure NutritionResult where
  success : Bool
  serving_sizes : Option Nat := none
  nutrition_info : Option NutritionInfo := none
  error : Option String := none
deriving Repr, DecidableEq

/-- `NutritionAnalyzer.DEFAULT_SERVING_SIZE` (nutrition.py:17). -/
def DEFAULT_SERVING_SIZE : Nat := 4

/-- Totals computation of `analyze_recipe_nutrition` (nutrition.py:203-211):
the five aggregate fields are sums over the parsed ingredients; a missing
field raises, which the outer handler turns into a failure result. -/
def computeTotals (ings : List RawIngredient) : Except String NutritionInfo :=
  match sumField RawIngredient.calories ings with
  | Except.error e => Except.error e
  | Except.ok c =>
    match sumField RawIngredient.fat ings with
    | Except.error e => Except.error e
    | Except.ok f =>
      match sumField RawIngredient.carbs ings with
      | Except.error e => Except.error e
      | Except.ok cb =>
        match sumField RawIngredient.protein ings with
        | Except.error e => Except.error e
        | Except.ok p =>
          match sumField RawIngredient.fiber ings with
          | Except.error e => Except.error e
          | Except.ok fb => Except.ok ⟨c, f, cb, p, fb, ings⟩

/-- `NutritionAnalyzer.analyze_recipe_nutrition` (nutrition.py:181-228).
`serving` is the outcome of `get_serving_sizes` (free text on success);
`nutri` is the outcome of `get_nutrition_info` on that text: `Except.error`
covers a failed model call, invalid JSON, and failed structure validation,
all of which that function maps to `success: false, error: msg`; `Except.ok`
carries the parsed `ingredients` array.  Neither step ever raises to this
caller.  Note that the JSON schema demanded of the model
(nutrition.py:42-56) contains no aggregate fields at all: the totals can only
come from the summation below. -/
def analyze_recipe_nutrition (serving : Except String String)
    (nutri : String → Except String (List RawIngredient)) : NutritionResult :=
  match serving with
  | Except.error e => { success := false, error := some e }
  | Except.ok ss =>
      match nutri ss with
      | Except.error e => { success := false, error := some e }
      | Except.ok ings =>
          match computeTotals ings with
          | Except.error e => { success := false, error := some e }
          | Except.ok info =>
              { success := true
                serving_sizes := some DEFAULT_SERVING_SIZE
                nutrition_info := some info }

/-! ## Scene extractor (`video_processing/scene_extractor.py`) -/

/-- One element of the list `extract_scenes` returns (scene_extractor.py:128-134).
Timestamps are seconds as rationals; `image_data` is the JPEG byte string. -/
structure Scene where
  scene_number : Nat
  start_time : ℚ
  end_time : ℚ
  duration : ℚ
  image_data : List Nat
deriving Repr, DecidableEq

/-- `VideoSceneExtractor.extract_scenes` (scene_extractor.py:74-148).
Oracles: `download` is the yt-dlp download (`Except.error` covers a raised
download error and also a missing downloaded file, both of which yield `[]`);
`detected` is the scene list from `scenedetect.detect` as (start, end) pairs;
`frame i` is the decoded first frame of scene `i` (`none` when
`video_cap.read` fails, in which case the scene is silently skipped);
`encodeOk i` is the JPEG encode outcome (failure skips the scene via
`continue`).  Every exception is caught and mapped to `[]`; the kept scenes
carry their original detection index as `scene_number`. -/
def extract_scenes (download : Except String Unit) (detected : List (ℚ × ℚ))
    (frame : Nat → Option (List Nat)) (encodeOk : Nat → Bool) : List Scene :=
  match download with
  | Except.error _ => []
  | Except.ok _ =>
      if detected.isEmpty then []
      else
        detected.enum.filterMap fun p =>
          match frame p.1 with
          | none => none
          | some bytes =>
              if encodeOk p.1 then
                some ⟨p.1, p.2.1, p.2.2, p.2.2 - p.2.1, bytes⟩
              else none

/-- `VideoSceneExtractor.get_video_scenes` (scene_extractor.py:150-164): a
try/except wrapper around `extract_scenes` that returns `[]` on any exception;
since `extract_scenes` already catches everything, this never raises and a
failed download surfaces as an empty list, not an error. -/
def get_video_scenes (download : Except String Unit) (detected : List (ℚ × ℚ))
    (frame : Nat → Option (List Nat)) (encodeOk : Nat → Bool) : List Scene :=
  extract_scenes download detected frame encodeOk

/-! ## Video recipe analyzer (`video_processing/video_recipe_analyzer.py`) -/

/-- One per-scene analysis dict (video_recipe_analyzer.py:70-74).  `timestamp`
stands for the formatted `"{start:.2f}s - {end:.2f}s"` range string and is
modelled by the underlying pair of seconds values. -/
structure SceneAnalysis where
  scene_number : Nat
  timestamp : ℚ × ℚ
  analysis : String
deriving Repr, DecidableEq

/-- `VideoRecipeAnalyzer._analyze_single_scene` (video_recipe_analyzer.py:48-91).
`vision` is the outcome of the temp-file write plus the vision call:
`Except.error e` is any exception inside the scene handler (mapped to an
`"Analysis failed: e"` placeholder, never re-raised), `Except.ok a` is the
vision response dict's optional `analysis` key (`a.getD` models
`analysis.get('analysis', 'Analysis failed')`).  The scene number recorded is
the caller's `enumerate` index, not the scene's own `scene_number` field. -/
def analyze_single_scene (vision : Except String (Option String))
    (scene : Scene) (scene_number : Nat) : SceneAnalysis :=
  match vision with
  | Except.ok a => ⟨scene_number, (scene.start_time, scene.end_time), a.getD "Analysis failed"⟩
  | Except.error e =>
      ⟨scene_number, (scene.start_time, scene.end_time), "Analysis failed: " ++ e⟩

/-- The in-place `scene_analyses.sort(key=lambda x: x['scene_number'])`
(video_recipe_analyzer.py:125): a stable sort ascending by scene number
(all stable sorts agree, so insertion sort models Python's sort exactly). -/
def sortScenes (l : List SceneAnalysis) : List SceneAnalysis :=
  List.insertionSort (fun a b => a.scene_number ≤ b.scene_number) l

/-- Result dict of `VideoRecipeAnalyzer.analyze_video`.  Keys absent from the
returned dict are `none`: the failure dict carries only `success` and
`error`, the success dict only `success`, `scene_analyses` and
`final_recipe`. -/
structure AnalyzeResult where
  success : Bool
  scene_analyses : Option (List SceneAnalysis) := none
  final_recipe : Option String := none
  error : Option String := none
deriving Repr, DecidableEq

/-- `VideoRecipeAnalyzer.analyze_video` (video_recipe_analyzer.py:93-161).
Oracles: `setupOutput` is the `os.makedirs` plus initial `output.txt` write
(an exception here reaches the outer handler); `download`, `detected`,
`frame`, `encodeOk` feed `get_video_scenes`; `vision i` is the per-scene
oracle for the scene at gather index `i` (per-scene failures never escape,
see `analyze_single_scene`); `aggregate` is the final chat-model call, given
the scene count and the sorted analyses the prompt is built from.  Any
exception from setup or aggregation is caught and mapped to the
`success: false` dict with only an error message. -/
def analyze_video (setupOutput : Except String Unit)
    (download : Except String Unit) (detected : List (ℚ × ℚ))
    (frame : Nat → Option (List Nat)) (encodeOk : Nat → Bool)
    (vision : Nat → Except String (Option String))
    (aggregate : Nat → List SceneAnalysis → Except String String) : AnalyzeResult :=
  match setupOutput with
  | Except.error e => { success := false, error := some e }
  | Except.ok _ =>
      let scenes := get_video_scenes download detected frame encodeOk
      let analyses := scenes.enum.map fun p => analyze_single_scene (vision p.1) p.2 p.1
      let sorted := sortScenes analyses
      match aggregate scenes.length sorted with
      | Except.ok content =>
          { success := true, scene_analyses := some sorted, final_recipe := some content }
      | Except.error e => { success := false, error := some e }

/-! ## Whisper extractor (`video_processing/whisper_extractor.py`)

The filesystem is modelled as the list of existing paths. -/

/-- The set of paths that currently exist. -/
structure FS where
  paths : List String
deriving Repr, DecidableEq

/-- Path creation (`tempfile.mkdtemp`, a file write). -/
def FS.add (fs : FS) (p : String) : FS := ⟨p :: fs.paths⟩

/-- Path removal (`os.remove`, `shutil.rmtree`). -/
def FS.remove (fs : FS) (p : String) : FS := ⟨fs.paths.filter fun q => q ≠ p⟩

/-- Existence test (`os.path.exists`). -/
def FS.exists (fs : FS) (p : String) : Bool := p ∈ fs.paths

/-- The audio path `download_audio` constructs inside its scratch directory
(whisper_extractor.py:68): `os.path.join(temp_dir, f"{video_id}.mp3")`. -/
def audioPathIn (tempDir : String) (videoId : String) : String :=
  tempDir ++ "/" ++ videoId ++ ".mp3"

/-- `WhisperExtractor.download_audio` (whisper_extractor.py:37-79).
`tempDir` is the fresh directory `tempfile.mkdtemp` creates; `extractOk`
is the yt-dlp extraction outcome (false covers both a raised exception and a
falsy `info`); `audioProduced` says whether FFmpeg post-processing left the
expected `.mp3` behind.  On every failure path the function returns `None`
and removes nothing: the scratch directory it created stays on disk. -/
def download_audio (fs : FS) (tempDir : String) (videoId : String)
    (extractOk : Bool) (audioProduced : Bool) : FS × Option String :=
  let fs1 := fs.add tempDir
  if !extractOk then (fs1, none)
  else
    let audio_path := audioPathIn tempDir videoId
    if audioProduced then (fs1.add audio_path, some audio_path)
    else (fs1, none)

/-- `WhisperExtractor.extract_transcript` (whisper_extractor.py:111-158).
`transcribeOk` is the Whisper call outcome (that call catches its own
exceptions and returns `None` on failure).  The `finally` block removes the
audio file if it exists, and would remove the local variable `temp_dir` —
but that variable is initialised to `None` at line 122 and never assigned
again (the scratch directory lives in `download_audio`'s own local), so the
directory branch of the cleanup never fires. -/
def extract_transcript (fs : FS) (tempDir : String) (videoId : String)
    (extractOk audioProduced transcribeOk : Bool) : FS × Option String :=
  let temp_dir : Option String := none
  let r := download_audio fs tempDir videoId extractOk audioProduced
  let fs1 := r.1
  let audio_path := r.2
  let result : Option String :=
    match audio_path with
    | none => none
    | some _ => if transcribeOk then some "transcript" else none
  let fs2 :=
    match audio_path with
    | some p => if fs1.exists p then fs1.remove p else fs1
    | none => fs1
  let fs3 :=
    match temp_dir with
    | some d => if fs2.exists d then fs2.remove d else fs2
    | none => fs2
  (fs3, result)

/-! ## Structured recipe generator (`features/add_recipe/generate_recipe_items.py`)

The model response after markdown-fence stripping and `json.loads` is a JSON
value. -/

/-- Parsed JSON values. -/
inductive Json where
  | null : Json
  | bool : Bool → Json
  | num : ℚ → Json
  | str : String → Json
  | arr : List Json → Json
  | obj : List (String × Json) → Json

/-- Key lookup in a JSON object (`structured_data["recipe"]`, `key in item`);
`none` on a non-object, whose code paths all funnel into the same
`success: false`, nothing-written outcome via the source's validation
returns or its outer exception handler. -/
def Json.lookup : Json → String → Option Json
  | Json.obj fields, key => fields.lookup key
  | _, _ => none

/-- Python's `isinstance(x, (int, float))` on a parsed JSON value
(generate_recipe_items.py:130).  A JSON boolean parses to Python `bool`,
which is a subclass of `int`, so it passes this check. -/
def isNumericPy : Json → Bool
  | Json.num _ => true
  | Json.bool _ => true
  | _ => false

/-- `required_recipe_keys` (generate_recipe_items.py:108). -/
def requiredRecipeKeys : List String := ["title", "summary", "additionalNotes"]

/-- `required_item_keys` (generate_recipe_items.py:109). -/
def requiredItemKeys : List String := ["stepOrder", "instruction"]

/-- Python `int()` truncation toward zero, applied to `stepOrder`
(generate_recipe_items.py:157). -/
def ratTruncToInt (q : ℚ) : Int := q.num.tdiv (q.den : Int)

/-- The value `int(item["stepOrder"])` persists: truncation on a number,
`int(True) = 1 / int(False) = 0` on a boolean.  Validation guarantees one of
these two cases. -/
def stepOrderToInt : Json → Int
  | Json.num q => ratTruncToInt q
  | Json.bool b => if b then 1 else 0
  | _ => 0

/-- The recipe document written to the `recipes` collection
(generate_recipe_items.py:138-145).  Field values are taken from the parsed
JSON unchecked beyond key presence, hence `Json`-typed. -/
structure RecipeDoc where
  videoId : Option String
  title : Json
  summary : Json
  additionalNotes : Json
  createdAt : String

/-- One recipe-item document written to the `recipe_items` collection
(generate_recipe_items.py:155-160). -/
structure RecipeItemDoc where
  recipeId : String
  stepOrder : Int
  instruction : Json
  additionalDetails : Json

/-- A document-store write performed by `generate_recipe_data`. -/
inductive WriteOp where
  | recipe : RecipeDoc → WriteOp
  | item : RecipeItemDoc → WriteOp

/-- Result dict of `RecipeGenerator.generate_recipe_data`, reduced to the
fields the pipeline inspects. -/
structure GenResult where
  success : Bool
  error : Option String := none
deriving Repr, DecidableEq

/-- The per-item validation loop (generate_recipe_items.py:125-132): first
failing item aborts with its error; an item that is not an object fails the
key check.  Runs before any write. -/
def validateItems : List Json → Option String
  | [] => none
  | it :: rest =>
      if !(requiredItemKeys.all fun k => (it.lookup k).isSome) then
        some "Recipe item missing required keys"
      else
        match it.lookup "stepOrder" with
        | some so => if !isNumericPy so then some "Invalid stepOrder type" else validateItems rest
        | none => some "Recipe item missing required keys"

/-- `RecipeGenerator.generate_recipe_data` (generate_recipe_items.py:52-188)
after a successful `json.loads` of the cleaned response (`j`).  Validation
runs in source order — `recipe` key, its three required keys, `recipeItems`
key, then every item — and only a fully validated structure reaches the
Firestore writes: one recipe document, then one document per item.  Every
failure returns `success: false` with an error message and an empty write
list.  A non-array `recipeItems` value funnels to the same failure outcome
through the source's iteration/indexing exceptions. -/
def generate_recipe_data (j : Json) (videoId : Option String)
    (recipeId : String) (now : String) : GenResult × List WriteOp :=
  match j.lookup "recipe" with
  | none => ({ success := false, error := some "Missing recipe key" }, [])
  | some recipeJ =>
      if !(requiredRecipeKeys.all fun k => (recipeJ.lookup k).isSome) then
        ({ success := false, error := some "Recipe missing required keys" }, [])
      else
        match j.lookup "recipeItems" with
        | none => ({ success := false, error := some "Missing recipeItems key" }, [])
        | some (Json.arr items) =>
            match validateItems items with
            | some e => ({ success := false, error := some e }, [])
            | none =>
                let recipeDoc : RecipeDoc :=
                  { videoId := videoId
                    title := (recipeJ.lookup "title").getD Json.null
                    summary := (recipeJ.lookup "summary").getD Json.null
                    additionalNotes := (recipeJ.lookup "additionalNotes").getD Json.null
                    createdAt := now }
                let itemDocs := items.map fun it =>
                  WriteOp.item
                    { recipeId := recipeId
                      stepOrder := stepOrderToInt ((it.lookup "stepOrder").getD Json.null)
                      instruction := (it.lookup "instruction").getD Json.null
                      additionalDetails := (it.lookup "additionalDetails").getD (Json.str "") }
                ({ success := true }, WriteOp.recipe recipeDoc :: itemDocs)
        | some _ => ({ success := false, error := some "recipeItems is not a list" }, [])

/-! ## Recipe ingestion orchestrator (`features/add_recipe/add_recipe_service.py`)

Firestore state relevant to the claims: the recipe-log document, the `videos`
collection and the `nutrition` collection.  `firestore.ArrayUnion` on
`processingSteps` is an append (entries all carry distinct content in one
run).  Each `log_ref.update` either applies atomically or raises; a raising
update is modelled by a boolean oracle and leaves the document unchanged,
after which the source's `except` block issues the error update. -/

/-- One entry of `processingSteps`.  The dicts the source builds do not all
carry the same keys, so `success` is `none` when the `success` key is absent,
and `error` distinguishes key-absent (`none`) from key-present-with-`None`
(`some none`, used by the nutrition step on success). -/
structure StepEntry where
  step : String
  status : String
  timestamp : String
  success : Option Bool
  error : Option (Option String)
deriving Repr, DecidableEq

/-- The `transcription` payload written to the log. -/
structure TranscriptionData where
  text : String
  timestamp : String
  success : Bool
  error : Option String
deriving Repr, DecidableEq

/-- The `analysis` payload written to the log.  `structured_recipe` is set
only when structured generation succeeded. -/
structure AnalysisData where
  scenes : List SceneAnalysis
  recipe : String
  timestamp : String
  success : Bool
  error : Option String
  structured_recipe : Option GenResult
deriving Repr, DecidableEq

/-- The `nutrition` payload written to the log, reduced to the fields the
claims inspect. -/
structure NutritionLogData where
  success : Bool
  error : Option String
deriving Repr, DecidableEq

/-- The recipe-log document. -/
structure RecipeLogDoc where
  status : String
  transcription : Option TranscriptionData
  analysis : Option AnalysisData
  nutrition : Option NutritionLogData
  processingSteps : List StepEntry
deriving Repr, DecidableEq

/-- A document of the `videos` collection, as written by `save_video`
(add_recipe_service.py:263-276). -/
structure VideoDoc where
  userId : String
  videoTitle : String
  videoDescription : String
  mealName : String
  mealDescription : String
  videoUrl : String
  thumbnailUrl : String
  duration : Int
  source : String
  uploadedAt : String
deriving Repr, DecidableEq

/-- A document of the `nutrition` collection, reduced to the linking and
aggregate fields (add_recipe_service.py:185-196). -/
structure NutritionDoc where
  videoId : Option String
  calories : ℚ
  fat : ℚ
  carbs : ℚ
  protein : ℚ
  fiber : ℚ
  ingredients : List RawIngredient
deriving Repr, DecidableEq

/-- `AddRecipeService.process_transcription` (add_recipe_service.py:22-72).
`transcript` is `extract_transcript`'s result (`WhisperExtractor` catches all
its own exceptions, so `None` — not a raise — is the failure mode; the text
is taken from the result, success is its truthiness).  `updateRaises` models
the `log_ref.update` call raising; the `except` block then writes the error
transcription and appends a `failed` step entry that carries an `error` key
but no `success` key. -/
def process_transcription (transcript : Option String) (updateRaises : Bool)
    (now : String) (log : RecipeLogDoc) : RecipeLogDoc × TranscriptionData :=
  if updateRaises then
    let errT : TranscriptionData :=
      { text := "", timestamp := now, success := false, error := some "update failed" }
    ({ log with
        transcription := some errT
        processingSteps := log.processingSteps ++
          [⟨"transcription", "failed", now, none, some (some "update failed")⟩] }, errT)
  else
    let t : TranscriptionData :=
      { text := transcript.getD "", timestamp := now, success := transcript.isSome, error := none }
    ({ log with
        transcription := some t
        processingSteps := log.processingSteps ++
          [⟨"transcription", "completed", now, some transcript.isSome, none⟩] }, t)

/-- `AddRecipeService.process_video_analysis` (add_recipe_service.py:74-165).
`ar` is `analyze_video`'s result dict; the analysis payload reads it with
`.get` defaults, and the `video_analysis` step entry is recorded with status
`completed` and the analysis success flag — with no error message even when
`ar.success` is false.  When analysis succeeded with non-empty recipe text,
structured generation runs (`videoLookup` is the videos-by-URL query result,
`gen` the outcome of `generate_recipe_data`, which never raises) and appends
its own `recipe_generation` entry.  `update1Raises` models the first
`log_ref.update` raising (the rest of the try is then skipped);
`update2Raises` models the structured-recipe update raising after the first
update applied, which sends the handler down the same `except` path, adding a
second, `failed`, `video_analysis` entry. -/
def process_video_analysis (ar : AnalyzeResult) (videoLookup : Option String)
    (gen : GenResult) (update1Raises update2Raises : Bool)
    (now : String) (log : RecipeLogDoc) : RecipeLogDoc × AnalysisData :=
  let errA : AnalysisData :=
    { scenes := [], recipe := "", timestamp := now, success := false
      error := some "update failed", structured_recipe := none }
  let errEntry : StepEntry :=
    ⟨"video_analysis", "failed", now, none, some (some "update failed")⟩
  if update1Raises then
    ({ log with
        analysis := some errA,
        processingSteps := log.processingSteps ++ [errEntry] }, errA)
  else
    let analysis : AnalysisData :=
      { scenes := ar.scene_analyses.getD [], recipe := ar.final_recipe.getD ""
        timestamp := now, success := ar.success, error := none, structured_recipe := none }
    let log1 :=
      { log with
          analysis := some analysis,
          processingSteps := log.processingSteps ++
            [⟨"video_analysis", "completed", now, some ar.success, none⟩] }
    if analysis.success && (analysis.recipe != "") then
      if update2Raises then
        ({ log1 with
            analysis := some errA,
            processingSteps := log1.processingSteps ++ [errEntry] }, errA)
      else if gen.success then
        let analysis2 := { analysis with structured_recipe := some gen }
        ({ log1 with
            analysis := some analysis2,
            processingSteps := log1.processingSteps ++
              [⟨"recipe_generation", "completed", now, some true, none⟩] }, analysis2)
      else
        ({ log1 with
            processingSteps := log1.processingSteps ++
              [⟨"recipe_generation", "failed", now, none, some gen.error⟩] }, analysis)
    else
      (log1, analysis)

/-- `AddRecipeService.process_nutrition` (add_recipe_service.py:167-255).
`nres` is `analyze_recipe_nutrition`'s result (that function never raises);
`videoLookup` is the videos-by-URL query.  On `nres.success` a nutrition
document is persisted; in BOTH branches the single `log_ref.update` then sets
`status` to `"completed"` and appends a `nutrition_analysis` entry carrying
both a `success` flag and an always-present `error` key (valued `None` on
success).  `getRaises` models the `log_ref.get()` / document write raising
before anything was persisted, after which the `except` block appends a
`failed` entry without touching `status`. -/
def process_nutrition (nres : NutritionResult) (videoLookup : Option String)
    (getRaises : Bool) (now : String) (log : RecipeLogDoc)
    (nutritionCol : List NutritionDoc) :
    RecipeLogDoc × List NutritionDoc × NutritionLogData :=
  if getRaises then
    let errN : NutritionLogData := { success := false, error := some "lookup failed" }
    ({ log with
        nutrition := some errN,
        processingSteps := log.processingSteps ++
          [⟨"nutrition_analysis", "failed", now, none, some (some "lookup failed")⟩] },
     nutritionCol, errN)
  else
    let nutritionCol1 :=
      if nres.success then
        match nres.nutrition_info with
        | some info =>
            nutritionCol ++ [{ videoId := videoLookup, calories := info.calories
                               fat := info.fat, carbs := info.carbs, protein := info.protein
                               fiber := info.fiber, ingredients := info.ingredients }]
        | none => nutritionCol
      else nutritionCol
    let n : NutritionLogData :=
      if nres.success then { success := true, error := none }
      else { success := false, error := some ((nres.error).getD "Unknown error") }
    ({ log with
        nutrition := some n
        status := "completed"
        processingSteps := log.processingSteps ++
          [⟨"nutrition_analysis", if nres.success then "completed" else "failed", now,
            some nres.success, some (if nres.success then none else nres.error)⟩] },
     nutritionCol1, n)

/-- `AddRecipeService.save_video` (add_recipe_service.py:257-291): builds the
video document from the metadata dict with `.get` defaults and writes it to
the `videos` collection. -/
def save_video (user_id : String) (m : Metadata) (now : String) : VideoDoc :=
  { userId := user_id
    videoTitle := m.title.getD ""
    videoDescription := m.description.getD ""
    mealName := m.title.getD ""
    mealDescription := "Restaurant quality meal made right at home."
    videoUrl := m.video_url.getD ""
    thumbnailUrl := m.thumbnail.getD ""
    duration := m.duration.getD 0
    source := m.platform.getD "unknown"
    uploadedAt := now }

/-- The Firestore state a pipeline run leaves behind. -/
structure PipelineState where
  videos : List VideoDoc
  nutritionCol : List NutritionDoc
  log : RecipeLogDoc
deriving Repr, DecidableEq

/-- `AddRecipeService.create_recipe_log` (add_recipe_service.py:293-394).
`metadata` is `extract_metadata`'s result (possibly the empty mapping — a
soft failure); `downloadResult` is `download_video`'s storage URL on success,
`none` on failure, in which case `metadata['video_url']` falls back to the
submitted URL.  The video document is saved before the log is created; the
log's initial `metadata_extraction` entry records `bool(metadata)` — always
true, because `video_url` was inserted into the dict just above.  After
transcription and video analysis, nutrition runs only when the analysis dict
has `success` truthy and non-empty recipe text; that branch sets the
response status to `completed` unconditionally, the other branch reports
`analyzed` (without a further status update on the stored document).  The
returned string is the response `status`. -/
def create_recipe_log (user_id video_url : String) (metadata : Metadata)
    (downloadResult : Option String)
    (transcript : Option String) (tRaise : Bool)
    (ar : AnalyzeResult) (videoLookup : Option String) (gen : GenResult)
    (a1Raise a2Raise : Bool)
    (nres : NutritionResult) (nRaise : Bool)
    (now : String) : PipelineState × String :=
  let md := { metadata with video_url := some (downloadResult.getD video_url) }
  let videoDoc := save_video user_id md now
  let log0 : RecipeLogDoc :=
    { status := "processing", transcription := none, analysis := none, nutrition := none
      processingSteps :=
        [⟨"metadata_extraction", "completed", now, some (!md.isEmpty), none⟩] }
  let r1 := process_transcription transcript tRaise now log0
  let r2 := process_video_analysis ar videoLookup gen a1Raise a2Raise now r1.1
  let analysis := r2.2
  if analysis.success && (analysis.recipe != "") then
    let r3 := process_nutrition nres videoLookup nRaise now r2.1 []
    ({ videos := [videoDoc], nutritionCol := r3.2.1, log := r3.1 }, "completed")
  else
    ({ videos := [videoDoc], nutritionCol := [], log := r2.1 }, "analyzed")

/-! ## Manual-recipe slideshow creator (`features/manual_recipe/video_creator.py`) -/

/-- `VideoCreator.duration_per_image` (video_creator.py:33): one second per
slide. -/
def duration_per_image : Nat := 1

/-- One ingredient image passed to `create_slideshow`, with its assigned
`order`. -/
structure IngredientImage where
  order : Nat
  url : String
deriving Repr, DecidableEq

/-- The `recipe_data` dict the confirmation stage passes along, reduced to
the fields the video creator reads. -/
structure ManualRecipeData where
  title : String
  description : String
  mealImageUrl : String
  ingredients : List String
deriving Repr, DecidableEq

/-- The video document `create_video_entry` writes to the `videos`
collection (video_creator.py:130-143).  Its `duration` field is
`len(recipe_data['ingredients']) + 1`. -/
structure ManualVideoDoc where
  userId : String
  videoTitle : String
  videoDescription : String
  mealName : String
  mealDescription : String
  videoUrl : String
  thumbnailUrl : String
  duration : Nat
  source : String
deriving Repr, DecidableEq

/-- `VideoCreator.create_video_entry` (video_creator.py:124-154). -/
def create_video_entry (user_id video_url : String)
    (recipe_data : ManualRecipeData) : ManualVideoDoc :=
  { userId := user_id
    videoTitle := "Recipe: " ++ recipe_data.title
    videoDescription := recipe_data.description
    mealName := recipe_data.title
    mealDescription := recipe_data.description
    videoUrl := video_url
    thumbnailUrl := recipe_data.mealImageUrl
    duration := recipe_data.ingredients.length + 1
    source := "manual_recipe" }

/-- Result dict of `create_slideshow`, reduced to the fields the claims
inspect (`duration` is reported only on success). -/
structure SlideshowResult where
  success : Bool
  video_url : Option String := none
  duration : Option Nat := none
  error : Option String := none
deriving Repr, DecidableEq

/-- The slide sequence `create_slideshow` renders (video_creator.py:180-183):
after downloading, the final (hero) image path is prepended and appended
around the ingredient paths, so the sequence has `ingredient count + 2`
entries, each shown for `duration_per_image` seconds. -/
def slideshowPaths (ingredientLocal : List String) (finalLocal : String) : List String :=
  finalLocal :: ingredientLocal ++ [finalLocal]

/-- `VideoCreator.create_slideshow` (video_creator.py:156-253).  Oracles:
`dl` maps a source URL to its downloaded local path, `okDownload`/`okFfmpeg`
are the download/render outcomes (any exception returns `success: false` with
nothing persisted), `uploadUrl` is the storage URL on upload success.  On
success the reported `duration` is the slide count times
`duration_per_image`, while the persisted video document (second component)
carries `create_video_entry`'s `ingredients + 1`. -/
def create_slideshow (ingredient_images : List IngredientImage)
    (final_image_url : String) (user_id : String) (recipe_data : ManualRecipeData)
    (dl : String → String) (okDownload okFfmpeg : Bool) (uploadUrl : Option String) :
    SlideshowResult × List ManualVideoDoc :=
  if !okDownload then
    ({ success := false, error := some "download failed" }, [])
  else
    let sorted := List.insertionSort (fun a b => a.order ≤ b.order) ingredient_images
    let localPaths := slideshowPaths (sorted.map fun img => dl img.url) (dl final_image_url)
    if !okFfmpeg then
      ({ success := false, error := some "Failed to create video" }, [])
    else
      match uploadUrl with
      | none => ({ success := false, error := some "upload failed" }, [])
      | some url =>
          let vdoc := create_video_entry user_id url recipe_data
          ({ success := true, video_url := some url
             duration := some (localPaths.length * duration_per_image) }, [vdoc])

/-! ## Theorems -/

/-- C8: a hostname containing `tiktok.com` or `vm.tiktok` classifies as
tiktok; one containing `youtube.com` or `youtu.be` (and not a tiktok marker,
which the source checks first) as youtube; one containing `instagram.com`
(and none of the earlier markers) as instagram; every other hostname as
unknown — and basic metadata extraction of an unknown-platform URL returns
the empty mapping without invoking the yt-dlp extractor. -/
theorem get_domain_classification :
    (∀ h : String,
      (strContains (strToLower h) "tiktok.com" = true ∨ strContains (strToLower h) "vm.tiktok" = true) →
        get_domain h = "tiktok") ∧
    (∀ h : String,
      strContains (strToLower h) "tiktok.com" = false → strContains (strToLower h) "vm.tiktok" = false →
      (strContains (strToLower h) "youtube.com" = true ∨ strContains (strToLower h) "youtu.be" = true) →
        get_domain h = "youtube") ∧
    (∀ h : String,
      strContains (strToLower h) "tiktok.com" = false → strContains (strToLower h) "vm.tiktok" = false →
      strContains (strToLower h) "youtube.com" = false → strContains (strToLower h) "youtu.be" = false →
      strContains (strToLower h) "instagram.com" = true →
        get_domain h = "instagram") ∧
    (∀ h : String,
      strContains (strToLower h) "tiktok.com" = false → strContains (strToLower h) "vm.tiktok" = false →
      strContains (strToLower h) "youtube.com" = false → strContains (strToLower h) "youtu.be" = false →
      strContains (strToLower h) "instagram.com" = false →
        get_domain h = "unknown") ∧
    (∀ (h url : String) (ydl : Option YdlInfo), get_domain h = "unknown" →
        extract_basic_metadata h url ydl = (emptyMetadata, false)) := by
  refine ⟨?_, ?_, ?_, ?_, ?_⟩
  · intro h hc
    rcases hc with hc | hc <;> simp [get_domain, hc]
  · intro h h1 h2 hc
    rcases hc with hc | hc <;> simp [get_domain, h1, h2, hc]
  · intro h h1 h2 h3 h4 hc
    simp [get_domain, h1, h2, h3, h4, hc]
  · intro h h1 h2 h3 h4 h5
    simp [get_domain, h1, h2, h3, h4, h5]
  · intro h url ydl hu
    simp [extract_basic_metadata, hu]

/-- C8 witness: concrete hostnames exercising each branch, including the
short-circuit of metadata extraction on an unknown host. -/
theorem get_domain_classification_witness :
    get_domain "www.tiktok.com" = "tiktok" ∧
    get_domain "vm.tiktok.com" = "tiktok" ∧
    get_domain "youtu.be" = "youtube" ∧
    get_domain "www.youtube.com" = "youtube" ∧
    get_domain "www.instagram.com" = "instagram" ∧
    get_domain "example.com" = "unknown" ∧
    extract_basic_metadata "example.com" "http://example.com/v" (some {}) =
      (emptyMetadata, false) :=
  ⟨get_domain_classification.1 "www.tiktok.com" (Or.inl (by decide)),
   get_domain_classification.1 "vm.tiktok.com" (Or.inr (by decide)),
   get_domain_classification.2.1 "youtu.be" (by decide) (by decide) (Or.inr (by decide)),
   get_domain_classification.2.1 "www.youtube.com" (by decide) (by decide) (Or.inl (by decide)),
   get_domain_classification.2.2.1 "www.instagram.com" (by decide) (by decide) (by decide)
     (by decide) (by decide),
   get_domain_classification.2.2.2.1 "example.com" (by decide) (by decide) (by decide)
     (by decide) (by decide),
   get_domain_classification.2.2.2.2 "example.com" "http://example.com/v" (some {})
     (get_domain_classification.2.2.2.1 "example.com" (by decide) (by decide) (by decide)
       (by decide) (by decide))⟩

/-- Destructuring a successful totals computation: the payload's ingredient
list is the input list and each aggregate field is that field's sum. -/
theorem computeTotals_ok (ings : List RawIngredient) (info : NutritionInfo)
    (h : computeTotals ings = Except.ok info) :
    info.ingredients = ings ∧
    sumField RawIngredient.calories ings = Except.ok info.calories ∧
    sumField RawIngredient.fat ings = Except.ok info.fat ∧
    sumField RawIngredient.carbs ings = Except.ok info.carbs ∧
    sumField RawIngredient.protein ings = Except.ok info.protein ∧
    sumField RawIngredient.fiber ings = Except.ok info.fiber := by
  unfold computeTotals at h
  cases h1 : sumField RawIngredient.calories ings with
  | error e => simp only [h1] at h; exact Except.noConfusion h
  | ok c =>
  simp only [h1] at h
  cases h2 : sumField RawIngredient.fat ings with
  | error e => simp only [h2] at h; exact Except.noConfusion h
  | ok f =>
  simp only [h2] at h
  cases h3 : sumField RawIngredient.carbs ings with
  | error e => simp only [h3] at h; exact Except.noConfusion h
  | ok cb =>
  simp only [h3] at h
  cases h4 : sumField RawIngredient.protein ings with
  | error e => simp only [h4] at h; exact Except.noConfusion h
  | ok p =>
  simp only [h4] at h
  cases h5 : sumField RawIngredient.fiber ings with
  | error e => simp only [h5] at h; exact Except.noConfusion h
  | ok fb =>
  simp only [h5, Except.ok.injEq] at h
  subst h
  exact ⟨rfl, rfl, rfl, rfl, rfl, rfl⟩

/-- C3: every successful result of `analyze_recipe_nutrition` with a
non-empty parsed ingredient list has each of the five aggregate totals equal
to the sum of the corresponding field over the ingredients list; the model's
demanded output schema carries no aggregates, so the totals are computed by
summation, never copied from the model. -/
theorem nutrition_totals_are_ingredient_sums
    (serving : Except String String)
    (nutri : String → Except String (List RawIngredient))
    (info : NutritionInfo)
    (hs : (analyze_recipe_nutrition serving nutri).success = true)
    (hi : (analyze_recipe_nutrition serving nutri).nutrition_info = some info)
    (hne : info.ingredients ≠ []) :
    sumField RawIngredient.calories info.ingredients = Except.ok info.calories ∧
    sumField RawIngredient.fat info.ingredients = Except.ok info.fat ∧
    sumField RawIngredient.carbs info.ingredients = Except.ok info.carbs ∧
    sumField RawIngredient.protein info.ingredients = Except.ok info.protein ∧
    sumField RawIngredient.fiber info.ingredients = Except.ok info.fiber := by
  unfold analyze_recipe_nutrition at hi
  cases hsv : serving with
  | error e => simp [hsv] at hi
  | ok ss =>
  simp only [hsv] at hi
  cases hn : nutri ss with
  | error e => simp [hn] at hi
  | ok ings =>
  simp only [hn] at hi
  cases hct : computeTotals ings with
  | error e => simp [hct] at hi
  | ok info2 =>
  simp only [hct, Option.some_inj] at hi
  have hd := computeTotals_ok ings info2 hct
  rw [← hi, hd.1]
  exact hd.2

/-- C3 witness: a two-ingredient run whose calorie total is the ingredient
sum. -/
theorem nutrition_totals_are_ingredient_sums_witness :
    sumField RawIngredient.calories
        [{ calories := some 100, fat := some 5, carbs := some 10, protein := some 3,
           fiber := some 2 },
         { calories := some 200, fat := some 15, carbs := some 20, protein := some 7,
           fiber := some 3 }] = Except.ok 300 := by
  have h := nutrition_totals_are_ingredient_sums (Except.ok "serving text")
    (fun _ => Except.ok
      [{ calories := some 100, fat := some 5, carbs := some 10, protein := some 3,
         fiber := some 2 },
       { calories := some 200, fat := some 15, carbs := some 20, protein := some 7,
         fiber := some 3 }])
    { calories := 100 + (200 + 0), fat := 5 + (15 + 0), carbs := 10 + (20 + 0),
      protein := 3 + (7 + 0), fiber := 2 + (3 + 0),
      ingredients :=
        [{ calories := some 100, fat := some 5, carbs := some 10, protein := some 3,
           fiber := some 2 },
         { calories := some 200, fat := some 15, carbs := some 20, protein := some 7,
           fiber := some 3 }] }
    (by simp [analyze_recipe_nutrition, computeTotals, sumField, Except.map])
    (by simp [analyze_recipe_nutrition, computeTotals, sumField, Except.map])
    (by simp)
  have h300 : (100 + (200 + 0) : ℚ) = 300 := by norm_num
  rw [h300] at h
  exact h.1

/-- The sort used by the analyzer is sorted ascending by scene number. -/
theorem sortScenes_sorted (l : List SceneAnalysis) :
    (sortScenes l).Pairwise fun a b => a.scene_number ≤ b.scene_number := by
  haveI : IsTotal SceneAnalysis (fun a b => a.scene_number ≤ b.scene_number) :=
    ⟨fun a b => Nat.le_total a.scene_number b.scene_number⟩
  haveI : IsTrans SceneAnalysis (fun a b => a.scene_number ≤ b.scene_number) :=
    ⟨fun a b c hab hbc => Nat.le_trans hab hbc⟩
  exact List.sorted_insertionSort _ l

/-- Two permuted lists with no duplicate scene numbers that are both sorted
by scene number are equal. -/
theorem sorted_unique_by_scene_number (l₁ l₂ : List SceneAnalysis)
    (hp : l₁.Perm l₂)
    (hn : (l₁.map SceneAnalysis.scene_number).Nodup)
    (hs₁ : l₁.Pairwise fun a b => a.scene_number ≤ b.scene_number)
    (hs₂ : l₂.Pairwise fun a b => a.scene_number ≤ b.scene_number) :
    l₁ = l₂ := by
  have hn₂ : (l₂.map SceneAnalysis.scene_number).Nodup := (hp.map _).nodup hn
  have strict : ∀ (l : List SceneAnalysis),
      (l.map SceneAnalysis.scene_number).Nodup →
      (l.Pairwise fun a b => a.scene_number ≤ b.scene_number) →
      l.Pairwise fun a b => a.scene_number < b.scene_number := by
    intro l hln hls
    have hne : l.Pairwise fun a b => a.scene_number ≠ b.scene_number :=
      (List.pairwise_map).1 hln
    exact (hls.and hne).imp fun h => lt_of_le_of_ne h.1 h.2
  haveI : IsAntisymm SceneAnalysis (fun a b => a.scene_number < b.scene_number) :=
    ⟨fun a b h h2 => absurd (lt_trans h h2) (lt_irrefl _)⟩
  exact List.eq_of_perm_of_sorted hp (strict l₁ hn hs₁) (strict l₂ hn₂ hs₂)

/-- C9: the per-scene sort is order-independent — any two permutations of
the same per-scene results (scene numbers are distinct, being `enumerate`
indices) sort to the same list — and every `scene_analyses` list returned by
`analyze_video` (the exact list its aggregation prompt is built from) is
sorted ascending by scene number. -/
theorem scene_analyses_order_independent :
    (∀ (l₁ l₂ : List SceneAnalysis), l₁.Perm l₂ →
      (l₁.map SceneAnalysis.scene_number).Nodup →
      sortScenes l₁ = sortScenes l₂) ∧
    (∀ setup download detected frame encodeOk vision aggregate
        (l : List SceneAnalysis),
      (analyze_video setup download detected frame encodeOk vision
          aggregate).scene_analyses = some l →
      l.Pairwise fun a b => a.scene_number ≤ b.scene_number) := by
  constructor
  · intro l₁ l₂ hp hn
    have hp1 : (sortScenes l₁).Perm (sortScenes l₂) :=
      ((List.perm_insertionSort _ l₁).trans hp).trans
        (List.perm_insertionSort _ l₂).symm
    have hn1 : ((sortScenes l₁).map SceneAnalysis.scene_number).Nodup :=
      (((List.perm_insertionSort _ l₁).map SceneAnalysis.scene_number).symm).nodup hn
    exact sorted_unique_by_scene_number _ _ hp1 hn1
      (sortScenes_sorted l₁) (sortScenes_sorted l₂)
  · intro setup download detected frame encodeOk vision aggregate l h
    unfold analyze_video at h
    cases hst : setup with
    | error e => simp [hst] at h
    | ok u =>
        simp only [hst] at h
        cases hagg : aggregate
            (get_video_scenes download detected frame encodeOk).length
            (sortScenes
              ((get_video_scenes download detected frame
                  encodeOk).enum.map fun p =>
                analyze_single_scene (vision p.1) p.2 p.1)) with
        | error e => simp [hagg] at h
        | ok content =>
            simp only [hagg, Option.some_inj] at h
            rw [← h]
            exact sortScenes_sorted _

/-- C9 witness: a two-element permutation sorts identically, and a concrete
two-scene run of `analyze_video` yields a sorted `scene_analyses` list. -/
theorem scene_analyses_order_independent_witness :
    sortScenes [⟨1, (1, 2), "b"⟩, ⟨0, (0, 1), "a"⟩]
      = sortScenes [⟨0, (0, 1), "a"⟩, ⟨1, (1, 2), "b"⟩] ∧
    List.Pairwise (fun a b => a.scene_number ≤ b.scene_number)
      [(⟨0, (0, 1), "x"⟩ : SceneAnalysis), ⟨1, (1, 2), "x"⟩] :=
  ⟨scene_analyses_order_independent.1
      [⟨1, (1, 2), "b"⟩, ⟨0, (0, 1), "a"⟩] [⟨0, (0, 1), "a"⟩, ⟨1, (1, 2), "b"⟩]
      (List.Perm.swap _ _ _) (by decide),
   scene_analyses_order_independent.2 (Except.ok ()) (Except.ok ())
      [(0, 1), (1, 2)] (fun _ => some []) (fun _ => true)
      (fun _ => Except.ok (some "x")) (fun _ _ => Except.ok "recipe")
      [⟨0, (0, 1), "x"⟩, ⟨1, (1, 2), "x"⟩] (by decide)⟩

/-- C1 counterexample: when the video download inside scene extraction
throws, `get_video_scenes` swallows the exception and returns `[]`, so
`analyze_video` returns `success: true` with an (empty) `scene_analyses`
list and a final recipe — not the claimed `success: false` error dict. -/
theorem analyze_video_download_failure_reports_success :
    analyze_video (Except.ok ()) (Except.error "Download failed") []
        (fun _ => none) (fun _ => false) (fun _ => Except.ok none)
        (fun _ _ => Except.ok "recipe text")
      = { success := true, scene_analyses := some [],
          final_recipe := some "recipe text" } := rfl

/-- C1 amended: `analyze_video` returns `success: false` (with an error
message and no partial scene data) only when a step of its own body — the
output-file setup or the aggregation call — throws; a failure inside scene
extraction itself (e.g. the download throwing) is swallowed by the
extractor, and `analyze_video` then reports `success: true` with an empty
`scene_analyses` list whenever aggregation succeeds. -/
theorem analyze_video_failure_modes
    (setup download : Except String Unit) (detected : List (ℚ × ℚ))
    (frame : Nat → Option (List Nat)) (encodeOk : Nat → Bool)
    (vision : Nat → Except String (Option String))
    (aggregate : Nat → List SceneAnalysis → Except String String) :
    ((analyze_video setup download detected frame encodeOk vision
        aggregate).success = false →
      (analyze_video setup download detected frame encodeOk vision
        aggregate).scene_analyses = none ∧
      (analyze_video setup download detected frame encodeOk vision
        aggregate).final_recipe = none ∧
      (analyze_video setup download detected frame encodeOk vision
        aggregate).error ≠ none) ∧
    (∀ err content, download = Except.error err → setup = Except.ok () →
      aggregate 0 [] = Except.ok content →
      analyze_video setup download detected frame encodeOk vision aggregate
        = { success := true, scene_analyses := some [],
            final_recipe := some content }) := by
  constructor
  · intro hf
    unfold analyze_video at *
    cases hst : setup with
    | error e => simp [hst]
    | ok u =>
        simp only [hst] at hf ⊢
        cases hagg : aggregate
            (get_video_scenes download detected frame encodeOk).length
            (sortScenes
              ((get_video_scenes download detected frame
                  encodeOk).enum.map fun p =>
                analyze_single_scene (vision p.1) p.2 p.1)) with
        | error e => simp [hagg]
        | ok content => simp [hagg] at hf
  · intro err content hd hs hagg
    subst hd
    subst hs
    have hdef : analyze_video (Except.ok ()) (Except.error err) detected frame
        encodeOk vision aggregate
        = match aggregate 0 [] with
          | Except.ok c =>
              { success := true, scene_analyses := some [], final_recipe := some c }
          | Except.error e => { success := false, error := some e } := rfl
    rw [hdef, hagg]

/-- C1 amended witness: a concrete failing aggregation call yields the bare
error dict, and a concrete failed download yields the success dict with an
empty scene list. -/
theorem analyze_video_failure_modes_witness :
    ((analyze_video (Except.error "makedirs failed") (Except.ok ()) []
        (fun _ => none) (fun _ => false) (fun _ => Except.ok none)
        (fun _ _ => Except.ok "r")).scene_analyses = none ∧
      (analyze_video (Except.error "makedirs failed") (Except.ok ()) []
        (fun _ => none) (fun _ => false) (fun _ => Except.ok none)
        (fun _ _ => Except.ok "r")).final_recipe = none ∧
      (analyze_video (Except.error "makedirs failed") (Except.ok ()) []
        (fun _ => none) (fun _ => false) (fun _ => Except.ok none)
        (fun _ _ => Except.ok "r")).error ≠ none) ∧
    analyze_video (Except.ok ()) (Except.error "Download failed") [(0, 1)]
        (fun _ => some []) (fun _ => true) (fun _ => Except.ok (some "x"))
        (fun _ _ => Except.ok "final recipe")
      = { success := true, scene_analyses := some [],
          final_recipe := some "final recipe" } :=
  ⟨(analyze_video_failure_modes (Except.error "makedirs failed") (Except.ok ())
      [] (fun _ => none) (fun _ => false) (fun _ => Except.ok none)
      (fun _ _ => Except.ok "r")).1 rfl,
   (analyze_video_failure_modes (Except.ok ()) (Except.error "Download failed")
      [(0, 1)] (fun _ => some []) (fun _ => true) (fun _ => Except.ok (some "x"))
      (fun _ _ => Except.ok "final recipe")).2 "Download failed" "final recipe"
      rfl rfl rfl⟩

/-- The audio path constructed inside the scratch directory is a different
path from the directory itself. -/
theorem tempDir_ne_audioPath (tempDir videoId : String) :
    tempDir ≠ audioPathIn tempDir videoId := by
  intro h
  have hlen := congrArg String.length h
  have h1 : ("/" : String).length = 1 := rfl
  have h4 : (".mp3" : String).length = 4 := rfl
  simp only [audioPathIn, String.length_append, h1, h4] at hlen
  omega

/-- C7: on every exit path of `extract_transcript` — download failure,
missing audio file, transcription failure, or full success — the scratch
directory created by `download_audio` is still on the filesystem when the
call returns: the cleanup branch for it tests the local `temp_dir`, which is
initialised to `None` and never assigned.  (The intermediate audio file, by
contrast, is removed whenever it was created.) -/
theorem extract_transcript_leaves_scratch_dir
    (fs : FS) (tempDir videoId : String)
    (extractOk audioProduced transcribeOk : Bool) :
    ((extract_transcript fs tempDir videoId extractOk audioProduced
        transcribeOk).1).exists tempDir = true := by
  have hne := tempDir_ne_audioPath tempDir videoId
  unfold extract_transcript download_audio
  cases extractOk <;> cases audioProduced <;> cases transcribeOk <;>
    simp [FS.exists, FS.add, FS.remove, List.mem_filter, decide_eq_true_eq, hne]

/-- C6: for a confirmed manual recipe with 3 ingredients, the slideshow that
`create_slideshow` assembles and reports has duration
`(3 + 2) * duration_per_image = 5` seconds (hero image at both ends), but the
Video entity the very same call persists through `create_video_entry` carries
`duration = ingredient_count + 1 = 4`. -/
theorem slideshow_video_duration_mismatch :
    (create_slideshow [⟨1, "i1"⟩, ⟨2, "i2"⟩, ⟨3, "i3"⟩] "hero" "user"
        { title := "Stir Fry", description := "d", mealImageUrl := "hero",
          ingredients := ["a", "b", "c"] }
        (fun s => s) true true (some "out")).1.duration
      = some ((3 + 2) * duration_per_image) ∧
    (create_slideshow [⟨1, "i1"⟩, ⟨2, "i2"⟩, ⟨3, "i3"⟩] "hero" "user"
        { title := "Stir Fry", description := "d", mealImageUrl := "hero",
          ingredients := ["a", "b", "c"] }
        (fun s => s) true true (some "out")).2
      = [create_video_entry "user" "out"
          { title := "Stir Fry", description := "d", mealImageUrl := "hero",
            ingredients := ["a", "b", "c"] }] ∧
    (create_video_entry "user" "out"
        { title := "Stir Fry", description := "d", mealImageUrl := "hero",
          ingredients := ["a", "b", "c"] }).duration = 3 + 1 ∧
    (3 + 1 : Nat) ≠ (3 + 2) * duration_per_image :=
  ⟨rfl, rfl, rfl, by decide⟩

/-- A recipe item violating the claim's conditions: a missing `stepOrder`
key, a missing `instruction` key, or a `stepOrder` value failing the numeric
check. -/
def badItem (it : Json) : Prop :=
  it.lookup "stepOrder" = none ∨ it.lookup "instruction" = none ∨
    ∃ so, it.lookup "stepOrder" = some so ∧ isNumericPy so = false

/-- The per-item validation loop flags a list containing a bad item. -/
theorem validateItems_finds_bad (items : List Json) (it : Json)
    (hmem : it ∈ items) (hbad : badItem it) :
    validateItems items ≠ none := by
  induction items with
  | nil => cases hmem
  | cons hd tl ih =>
      cases hmem with
      | head =>
          unfold validateItems
          rcases hbad with hb | hb | ⟨so, hso, hnum⟩
          · simp [requiredItemKeys, hb]
          · simp [requiredItemKeys, hb]
          · by_cases hall : (requiredItemKeys.all fun k => (it.lookup k).isSome) = true
            · simp [hall, hso, hnum]
            · simp [hall]
      | tail _ hmem2 =>
          unfold validateItems
          by_cases hall : (requiredItemKeys.all fun k => (hd.lookup k).isSome) = true
          · simp only [hall, Bool.not_true]
            cases hso : hd.lookup "stepOrder" with
            | none => simp
            | some so =>
                by_cases hnum : isNumericPy so = true
                · simp [hnum]
                  exact fun h => (ih hmem2) h
                · simp [Bool.not_eq_true] at hnum
                  simp [hnum]
          · simp [hall]

/-- C4: any parsed model response that is missing the `recipe` object, or
one of `recipe.title`/`recipe.summary`/`recipe.additionalNotes`, or whose
item array contains an item missing `stepOrder` (as a numeric value) or
`instruction`, makes `generate_recipe_data` return `success: false` with an
error message and write nothing to the document store. -/
theorem generate_recipe_rejects_malformed
    (j : Json) (videoId : Option String) (recipeId now : String)
    (h : j.lookup "recipe" = none
      ∨ (∃ r, j.lookup "recipe" = some r ∧ ∃ k ∈ requiredRecipeKeys, r.lookup k = none)
      ∨ (∃ items, j.lookup "recipeItems" = some (Json.arr items) ∧
          ∃ it ∈ items, badItem it)) :
    (generate_recipe_data j videoId recipeId now).1.success = false ∧
    (generate_recipe_data j videoId recipeId now).1.error ≠ none ∧
    (generate_recipe_data j videoId recipeId now).2 = [] := by
  unfold generate_recipe_data
  cases hr : j.lookup "recipe" with
  | none => simp
  | some r =>
      simp only []
      by_cases hall : (requiredRecipeKeys.all fun k => (r.lookup k).isSome) = true
      · rcases h with h | ⟨r2, hr2, k, hk, hkn⟩ | ⟨items, hitems, it, hmem, hbad⟩
        · rw [hr] at h; exact Option.noConfusion h
        · rw [hr] at hr2
          cases hr2
          rw [List.all_eq_true] at hall
          have := hall k hk
          rw [hkn] at this
          simp at this
        · rw [hitems]
          simp only [hall, Bool.not_true]
          cases hv : validateItems items with
          | none => exact absurd hv (validateItems_finds_bad items it hmem hbad)
          | some e => simp
      · simp [hall]

/-- C4 witness: a response missing the `recipe` object is rejected with an
error and no writes. -/
theorem generate_recipe_rejects_malformed_witness :
    (generate_recipe_data (Json.obj [("recipeItems", Json.arr [])]) none
        "rid" "t0").1.success = false ∧
    (generate_recipe_data (Json.obj [("recipeItems", Json.arr [])]) none
        "rid" "t0").1.error ≠ none ∧
    (generate_recipe_data (Json.obj [("recipeItems", Json.arr [])]) none
        "rid" "t0").2 = [] :=
  generate_recipe_rejects_malformed (Json.obj [("recipeItems", Json.arr [])])
    none "rid" "t0" (Or.inl rfl)

/-- C2 counterexample: scene analysis succeeded with recipe text, nutrition
estimation failed — yet both the returned status and the stored log status
are `completed`, and no nutrition document was persisted. -/
theorem completed_status_despite_nutrition_failure :
    (create_recipe_log "u" "http://v" emptyMetadata none (some "t") false
        { success := true, scene_analyses := some [], final_recipe := some "recipe" }
        none { success := true } false false
        { success := false, error := some "parse error" } false "t0").2
      = "completed" ∧
    (create_recipe_log "u" "http://v" emptyMetadata none (some "t") false
        { success := true, scene_analyses := some [], final_recipe := some "recipe" }
        none { success := true } false false
        { success := false, error := some "parse error" } false "t0").1.log.status
      = "completed" ∧
    (create_recipe_log "u" "http://v" emptyMetadata none (some "t") false
        { success := true, scene_analyses := some [], final_recipe := some "recipe" }
        none { success := true } false false
        { success := false, error := some "parse error" } false "t0").1.nutritionCol
      = [] := ⟨rfl, rfl, rfl⟩

set_option maxRecDepth 4000 in
/-- C2 amended: in a run without injected store exceptions around the
analysis updates, the Recipe Log's status settles at `completed` exactly when
scene analysis succeeded with non-empty recipe text — regardless of whether
nutrition estimation succeeded or any Nutrition Record was persisted (on
nutrition failure the log still completes with an empty nutrition
collection); without usable recipe text the run settles at `analyzed`. -/
theorem recipe_log_status_settlement (uid url : String) (md : Metadata)
    (dlr : Option String) (t : Option String) (tR : Bool) (ar : AnalyzeResult)
    (vl : Option String) (gen : GenResult) (nres : NutritionResult) (nR : Bool)
    (now : String) :
    ((create_recipe_log uid url md dlr t tR ar vl gen false false nres nR
          now).2 = "completed"
        ↔ (ar.success = true ∧ ar.final_recipe.getD "" ≠ "")) ∧
    (ar.success = true → ar.final_recipe.getD "" ≠ "" → nR = false →
      nres.success = false →
      (create_recipe_log uid url md dlr t tR ar vl gen false false nres nR
          now).1.log.status = "completed" ∧
      (create_recipe_log uid url md dlr t tR ar vl gen false false nres nR
          now).1.nutritionCol = []) ∧
    (¬(ar.success = true ∧ ar.final_recipe.getD "" ≠ "") →
      (create_recipe_log uid url md dlr t tR ar vl gen false false nres nR
          now).2 = "analyzed" ∧
      (create_recipe_log uid url md dlr t tR ar vl gen false false nres nR
          now).1.nutritionCol = []) := by
  obtain ⟨asucc, ascn, afr, aerr⟩ := ar
  obtain ⟨gsucc, gerr⟩ := gen
  obtain ⟨nsucc, nss, nni, nerr⟩ := nres
  by_cases hrec : afr.getD "" = ""
  · cases asucc <;>
      simp [create_recipe_log, process_video_analysis, process_transcription,
        process_nutrition, hrec, apply_ite]
  · cases asucc
    · simp [create_recipe_log, process_video_analysis, process_transcription,
        process_nutrition, hrec, apply_ite]
    · cases nR <;> cases gsucc <;> cases nsucc <;> cases tR <;>
        simp [create_recipe_log, process_video_analysis, process_transcription,
          process_nutrition, hrec, apply_ite]

/-- C2 amended witness: a concrete run with failed nutrition still completes,
and a concrete run with failed analysis settles at analyzed. -/
theorem recipe_log_status_settlement_witness :
    (create_recipe_log "u" "http://v" emptyMetadata none (some "t") false
        { success := true, scene_analyses := some [], final_recipe := some "recipe" }
        none { success := true } false false
        { success := false, error := some "e" } false "t0").1.log.status
      = "completed" ∧
    (create_recipe_log "u" "http://v" emptyMetadata none (some "t") false
        { success := false, error := some "boom" }
        none { success := true } false false
        { success := false, error := some "e" } false "t0").2 = "analyzed" :=
  ⟨((recipe_log_status_settlement "u" "http://v" emptyMetadata none (some "t")
      false
      { success := true, scene_analyses := some [], final_recipe := some "recipe" }
      none { success := true } { success := false, error := some "e" } false
      "t0").2.1 rfl (by decide) rfl rfl).1,
   ((recipe_log_status_settlement "u" "http://v" emptyMetadata none (some "t")
      false { success := false, error := some "boom" }
      none { success := true } { success := false, error := some "e" } false
      "t0").2.2 (by simp)).1⟩

/-- C10: every submission persists exactly one Video document; with an empty
metadata mapping and a failed video download/re-host, the document is
written with empty title, description and thumbnail, duration 0, source
`unknown`, and `videoUrl` falling back to the submitted URL. -/
theorem video_persisted_even_with_empty_metadata (uid url : String)
    (md : Metadata) (dlr : Option String) (t : Option String) (tR : Bool)
    (ar : AnalyzeResult) (vl : Option String) (gen : GenResult)
    (a1 a2 : Bool) (nres : NutritionResult) (nR : Bool) (now : String) :
    (create_recipe_log uid url md dlr t tR ar vl gen a1 a2 nres nR
        now).1.videos.length = 1 ∧
    (create_recipe_log uid url emptyMetadata none t tR ar vl gen a1 a2 nres nR
        now).1.videos
      = [{ userId := uid, videoTitle := "", videoDescription := "",
           mealName := "",
           mealDescription := "Restaurant quality meal made right at home.",
           videoUrl := url, thumbnailUrl := "", duration := 0,
           source := "unknown", uploadedAt := now }] := by
  constructor
  · simp only [create_recipe_log]
    split <;> rfl
  · simp only [create_recipe_log]
    split <;> rfl
